import Mathlib

/-!
Shallow embedding of the ecs-wait-action GitHub Action (src/index.js) and
proofs about its retry controller, entry point, and error propagation.

The embedding models the JavaScript source directly:
- JS numbers produced by parseInt are either NaN or an integer (JSNum);
  comparisons involving NaN are false, as in JS.
- The external ECS waitFor promise is an oracle, a function from the attempt
  number (1-based, equal to currTry at the moment of the call) to an
  optional error; none means the promise resolved (service stable), some msg
  means it rejected with an error carrying that message.
- The external STS AssumeRole call is an oracle value of type
  Except String StsCreds: ok means the call resolved, error carries the
  message of the rejection.
- core.setFailed calls are collected in order; core.setOutput is recorded.
-/

namespace EcsWait

/-- A JavaScript number as produced by parseInt: either NaN or an integer. -/
inductive JSNum where
  | nan : JSNum
  | num : Int → JSNum
deriving DecidableEq, Repr

/-- JS comparison a <= b where b may be NaN: every comparison with NaN is false. -/
def jsLe (a : Int) : JSNum → Bool
  | JSNum.nan => false
  | JSNum.num b => a ≤ b

/-- JS comparison a > b where b may be NaN: every comparison with NaN is false. -/
def jsGt (a : Int) : JSNum → Bool
  | JSNum.nan => false
  | JSNum.num b => b < a

/-- Rendering of a JS number inside a template string. -/
def JSNum.toStr : JSNum → String
  | JSNum.nan => "NaN"
  | JSNum.num n => toString n

/--
The while loop of the function retry in src/index.js, lines 31-45, with the
loop counter currTry as an explicit argument. The check oracle gives the
outcome of the waitForStability call at each attempt number: none means the
promise resolved, some msg means it rejected. Returns the final value of
currTry together with the number of times the check was invoked.

Source:
  while (currTry <= retries && !isStable) {
    try { await waitForStability(params); isStable = true; }
    catch (err) { ++currTry; }
  }
  return currTry;
-/
def retryLoop (check : Nat → Option String) (retries : JSNum) (currTry : Nat) :
    Nat × Nat :=
  if h : jsLe (currTry : Int) retries = true then
    match check currTry with
    | none => (currTry, 1)
    | some _ =>
        let rest := retryLoop check retries (currTry + 1)
        (rest.1, rest.2 + 1)
  else
    (currTry, 0)
termination_by
  match retries with
  | JSNum.nan => 0
  | JSNum.num r => (r + 1 - (currTry : Int)).toNat
decreasing_by
  cases retries with
  | nan => simp [jsLe] at h
  | num r =>
      simp only [jsLe, decide_eq_true_eq] at h
      simp only []
      omega

/-- The function retry of src/index.js, started with currTry = 1.
Returns the returned currTry and the number of check invocations. -/
def retry (check : Nat → Option String) (retries : JSNum) : Nat × Nat :=
  retryLoop check retries 1

/-- The Credentials field of an STS AssumeRole response, as read by
assumeRoleInAccount in src/index.js, lines 76-78. -/
structure StsCreds where
  accessKeyId : String
  secretAccessKey : String
  sessionToken : String
deriving DecidableEq, Repr

/-- The credentials object returned by assumeRoleInAccount,
src/index.js lines 75-80. -/
structure Credentials where
  accessKeyId : String
  secretAccessKey : String
  sessionToken : String
  region : String
deriving DecidableEq, Repr

/-- The AWS.ECS connection object built by createEcsConnection,
src/index.js lines 58-65. -/
structure ECSConn where
  apiVersion : String
  accessKeyId : String
  secretAccessKey : String
  sessionToken : String
  region : String
deriving DecidableEq, Repr

/-- The function assumeRoleInAccount of src/index.js, lines 68-81. The
outcome of the external stsClient.send network call is an oracle argument:
error e models a rejection with message e. The returned credentials copy the
three secret fields from the response and set region to the constant
string eu-central-1 (line 79). -/
def assumeRoleInAccount (stsSend : Except String StsCreds) :
    Except String Credentials :=
  match stsSend with
  | Except.error e => Except.error e
  | Except.ok assumedRole =>
      Except.ok ⟨assumedRole.accessKeyId, assumedRole.secretAccessKey,
                 assumedRole.sessionToken, "eu-central-1"⟩

/-- The function createEcsConnection of src/index.js, lines 58-65: pure
construction of the connection object from the credentials. -/
def createEcsConnection (credentials : Credentials) : ECSConn :=
  ⟨"2014-11-13", credentials.accessKeyId, credentials.secretAccessKey,
   credentials.sessionToken, credentials.region⟩

/-- Region used for the module-level STS client, src/index.js line 5: the
raw aws-region input, with no fallback and no constant override. -/
def stsClientRegion (awsRegionInput : String) : String :=
  awsRegionInput

/-- The request that waitForStability (src/index.js lines 17-18) passes to
ecsConnection.waitFor: the state name servicesStable plus cluster and
services, taken from the params unchanged. -/
structure WaitReq where
  state : String
  cluster : String
  services : List String
deriving DecidableEq, Repr

/-- Argument construction of waitForStability, src/index.js lines 17-18. -/
def waitForStabilityReq (cluster : String) (services : List String) :
    WaitReq :=
  ⟨"servicesStable", cluster, services⟩

/-- External configuration of one run, as read by the entry point. Absent
string inputs are the empty string, as with the actions core getInput.
The retries field is the result of parseInt on the retries input (NaN when
it does not parse); servicesInput is the result of JSON.parse on the
ecs-services input (error e models a parse exception with message e). -/
structure Inputs where
  awsRegion : String
  envRegion : String
  retriesInput : JSNum
  cluster : String
  servicesInput : Except String (List String)
  verboseInput : String
  roleToAssume : String

/-- The params object of extractParams, src/index.js lines 91-98. -/
structure Params where
  region : String
  retries : JSNum
  cluster : String
  services : List String
  verbose : Bool
  assumeRole : String

/-- Region resolution of src/index.js line 92: the aws-region input if it is
truthy (nonempty), else the AWS_REGION environment variable. -/
def resolvedRegion (i : Inputs) : String :=
  if i.awsRegion = "" then i.envRegion else i.awsRegion

/-- The message of the setFailed call in extractParams,
src/index.js lines 101-103. -/
def configFailMsg : String :=
  "AWS credentials were not found in inputs or environment variables."

/-- The message of the setFailed call on exhaustion,
src/index.js line 132, with the configured retries value interpolated. -/
def stabilityFailMsg (retries : JSNum) : String :=
  "Service is not stable after " ++ retries.toStr ++ " retries!"

/-- The function extractParams of src/index.js, lines 90-108. Throws (error)
when JSON.parse throws; returns none after the setFailed call when the
role input or the resolved region is falsy; otherwise returns the params. -/
def extractParams (i : Inputs) : Except String (Option Params) :=
  match i.servicesInput with
  | Except.error e => Except.error e
  | Except.ok services =>
      let params : Params :=
        ⟨resolvedRegion i, i.retriesInput, i.cluster, services,
         i.verboseInput = "true", i.roleToAssume⟩
      if params.assumeRole = "" ∨ params.region = "" then
        Except.ok none
      else
        Except.ok (some params)

/-- Observable outcome of one run of main: the setFailed messages in call
order, the retries output if set, whether the stsClient.send network call
was made, whether the ECS connection object was built, how many times the
waitForStability check ran, the region of the built connection, and the
waitFor request of the check calls (all calls use the same params object). -/
structure RunResult where
  failedMsgs : List String
  output : Option String
  stsCalled : Bool
  ecsConnectionMade : Bool
  checkCalls : Nat
  connRegion : Option String
  waitReq : Option WaitReq
deriving DecidableEq, Repr

/-- The function main of src/index.js, lines 113-142, with the two external
network outcomes (STS send, ECS waitFor per attempt) as oracle arguments.
Order follows the source: extractParams first (line 115, its JSON.parse
exception propagating to the catch on line 139), then assumeRoleInAccount
(line 117) before the null-params early return (lines 120-122), then the
connection, the retry loop, and the comparison on line 128. -/
def mainRun (i : Inputs) (stsSend : Except String StsCreds)
    (check : Nat → Option String) : RunResult :=
  match extractParams i with
  | Except.error e => ⟨[e], none, false, false, 0, none, none⟩
  | Except.ok paramsOpt =>
      let configMsgs := if paramsOpt.isSome then [] else [configFailMsg]
      match assumeRoleInAccount stsSend with
      | Except.error e => ⟨configMsgs ++ [e], none, true, false, 0, none, none⟩
      | Except.ok credentials =>
          match paramsOpt with
          | none => ⟨configMsgs, none, true, false, 0, none, none⟩
          | some params =>
              let ecsConnection := createEcsConnection credentials
              let result := retry check params.retries
              let req :=
                if result.2 = 0 then none
                else some (waitForStabilityReq params.cluster params.services)
              if jsGt (result.1 : Int) params.retries then
                ⟨configMsgs ++ [stabilityFailMsg params.retries], none, true,
                 true, result.2, some ecsConnection.region, req⟩
              else
                ⟨configMsgs, some (toString result.1), true, true, result.2,
                 some ecsConnection.region, req⟩

theorem retryLoop_stop (check : Nat → Option String) (retries : JSNum)
    (currTry : Nat) (h : jsLe (currTry : Int) retries = false) :
    retryLoop check retries currTry = (currTry, 0) := by
  rw [retryLoop]
  simp [h]

theorem retryLoop_ok (check : Nat → Option String) (retries : JSNum)
    (currTry : Nat) (h : jsLe (currTry : Int) retries = true)
    (hc : check currTry = none) :
    retryLoop check retries currTry = (currTry, 1) := by
  rw [retryLoop]
  simp [h, hc]

theorem retryLoop_err (check : Nat → Option String) (retries : JSNum)
    (currTry : Nat) (m : String) (h : jsLe (currTry : Int) retries = true)
    (hc : check currTry = some m) :
    retryLoop check retries currTry =
      ((retryLoop check retries (currTry + 1)).1,
       (retryLoop check retries (currTry + 1)).2 + 1) := by
  rw [retryLoop]
  simp [h, hc]

theorem retryLoop_exhaust_aux (check : Nat → Option String) (r : Nat) (d : Nat) :
    ∀ t, r + 1 - t = d → t ≤ r + 1 →
      (∀ n, t ≤ n → n ≤ r → check n ≠ none) →
      retryLoop check (JSNum.num (r : Int)) t = (r + 1, r + 1 - t) := by
  induction d with
  | zero =>
      intro t hd ht hf
      have heq : t = r + 1 := by omega
      subst heq
      have hle : jsLe ((r + 1 : Nat) : Int) (JSNum.num (r : Int)) = false := by
        simp [jsLe]
      rw [retryLoop_stop check _ _ hle]
      simp
  | succ d ih =>
      intro t hd ht hf
      have htr : t ≤ r := by omega
      have hle : jsLe ((t : Nat) : Int) (JSNum.num (r : Int)) = true := by
        simp [jsLe]
        exact_mod_cast htr
      obtain ⟨m, hm⟩ : ∃ m, check t = some m := by
        cases hc : check t with
        | none => exact absurd hc (hf t le_rfl htr)
        | some m => exact ⟨m, rfl⟩
      rw [retryLoop_err check _ _ m hle hm]
      have hrec := ih (t + 1) (by omega) (by omega)
        (fun n hn1 hn2 => hf n (by omega) hn2)
      rw [hrec]
      simp only [Prod.mk.injEq]
      exact ⟨trivial, by omega⟩

theorem retryLoop_succeed_aux (check : Nat → Option String) (r k : Nat)
    (d : Nat) :
    ∀ t, k - t = d → t ≤ k → k ≤ r →
      (∀ n, t ≤ n → n < k → check n ≠ none) → check k = none →
      retryLoop check (JSNum.num (r : Int)) t = (k, k - t + 1) := by
  induction d with
  | zero =>
      intro t hd ht hkr hf hk
      have heq : t = k := by omega
      subst heq
      have hle : jsLe ((t : Nat) : Int) (JSNum.num (r : Int)) = true := by
        simp [jsLe]
        exact_mod_cast hkr
      rw [retryLoop_ok check _ _ hle hk]
      simp
  | succ d ih =>
      intro t hd ht hkr hf hk
      have htk : t < k := by omega
      have hle : jsLe ((t : Nat) : Int) (JSNum.num (r : Int)) = true := by
        simp [jsLe]
        omega
      obtain ⟨m, hm⟩ : ∃ m, check t = some m := by
        cases hc : check t with
        | none => exact absurd hc (hf t le_rfl htk)
        | some m => exact ⟨m, rfl⟩
      rw [retryLoop_err check _ _ m hle hm]
      have hrec := ih (t + 1) (by omega) (by omega) hkr
        (fun n hn1 hn2 => hf n (by omega) hn2) hk
      rw [hrec]
      simp only [Prod.mk.injEq]
      exact ⟨trivial, by omega⟩

theorem retryLoop_le_aux (check : Nat → Option String) (r : Nat) (d : Nat) :
    ∀ t, r + 1 - t = d → t ≤ r + 1 →
      (retryLoop check (JSNum.num (r : Int)) t).1 ≤ r + 1 := by
  induction d with
  | zero =>
      intro t hd ht
      have heq : t = r + 1 := by omega
      subst heq
      have hle : jsLe ((r + 1 : Nat) : Int) (JSNum.num (r : Int)) = false := by
        simp [jsLe]
      rw [retryLoop_stop check _ _ hle]
  | succ d ih =>
      intro t hd ht
      have htr : t ≤ r := by omega
      have hle : jsLe ((t : Nat) : Int) (JSNum.num (r : Int)) = true := by
        simp [jsLe]
        exact_mod_cast htr
      cases hc : check t with
      | none =>
          rw [retryLoop_ok check _ _ hle hc]
          omega
      | some m =>
          rw [retryLoop_err check _ _ m hle hc]
          exact ih (t + 1) (by omega) (by omega)

theorem retryLoop_congr_aux (o1 o2 : Nat → Option String)
    (hsame : ∀ n, o1 n = none ↔ o2 n = none) (r : Int) (d : Nat) :
    ∀ t : Nat, (r + 1 - (t : Int)).toNat = d →
      retryLoop o1 (JSNum.num r) t = retryLoop o2 (JSNum.num r) t := by
  induction d with
  | zero =>
      intro t hd
      have hle : jsLe ((t : Nat) : Int) (JSNum.num r) = false := by
        simp [jsLe]
        omega
      rw [retryLoop_stop o1 _ _ hle, retryLoop_stop o2 _ _ hle]
  | succ d ih =>
      intro t hd
      have hle : jsLe ((t : Nat) : Int) (JSNum.num r) = true := by
        simp [jsLe]
        omega
      cases hc : o1 t with
      | none =>
          have hc2 : o2 t = none := (hsame t).mp hc
          rw [retryLoop_ok o1 _ _ hle hc, retryLoop_ok o2 _ _ hle hc2]
      | some m =>
          obtain ⟨m2, hc2⟩ : ∃ m2, o2 t = some m2 := by
            cases hc2 : o2 t with
            | none =>
                have : o1 t = none := (hsame t).mpr hc2
                rw [this] at hc
                exact absurd hc (by simp)
            | some m2 => exact ⟨m2, rfl⟩
          rw [retryLoop_err o1 _ _ m hle hc, retryLoop_err o2 _ _ m2 hle hc2]
          rw [ih (t + 1) (by omega)]

theorem retry_calls_pos (check : Nat → Option String) (retries : JSNum)
    (h : jsLe (1 : Int) retries = true) :
    (retry check retries).2 ≠ 0 := by
  unfold retry
  have h1 : jsLe ((1 : Nat) : Int) retries = true := by exact_mod_cast h
  cases hc : check 1 with
  | none =>
      rw [retryLoop_ok check _ _ h1 hc]
      simp
  | some m =>
      rw [retryLoop_err check _ _ m h1 hc]
      simp

theorem extractParams_valid (i : Inputs) (svcs : List String)
    (hsv : i.servicesInput = Except.ok svcs)
    (hrole : i.roleToAssume ≠ "") (hreg : resolvedRegion i ≠ "") :
    extractParams i =
      Except.ok (some ⟨resolvedRegion i, i.retriesInput, i.cluster, svcs,
                       i.verboseInput = "true", i.roleToAssume⟩) := by
  unfold extractParams
  rw [hsv]
  simp [hrole, hreg]

theorem mainRun_valid (i : Inputs) (svcs : List String) (s : StsCreds)
    (check : Nat → Option String)
    (hsv : i.servicesInput = Except.ok svcs)
    (hrole : i.roleToAssume ≠ "") (hreg : resolvedRegion i ≠ "") :
    mainRun i (Except.ok s) check =
      (if jsGt ((retry check i.retriesInput).1 : Int) i.retriesInput then
        ⟨[stabilityFailMsg i.retriesInput], none, true, true,
         (retry check i.retriesInput).2, some "eu-central-1",
         if (retry check i.retriesInput).2 = 0 then none
         else some (waitForStabilityReq i.cluster svcs)⟩
      else
        ⟨[], some (toString (retry check i.retriesInput).1), true, true,
         (retry check i.retriesInput).2, some "eu-central-1",
         if (retry check i.retriesInput).2 = 0 then none
         else some (waitForStabilityReq i.cluster svcs)⟩) := by
  unfold mainRun
  rw [extractParams_valid i svcs hsv hrole hreg]
  simp only [assumeRoleInAccount, createEcsConnection, Option.isSome_some,
    if_true]
  rfl

theorem retry_eval_exhaust (check : Nat → Option String) (r : Nat)
    (hfail : ∀ n, 1 ≤ n → n ≤ r → check n ≠ none) :
    retry check (JSNum.num (r : Int)) = (r + 1, r) := by
  unfold retry
  rw [retryLoop_exhaust_aux check r r 1 (by omega) (by omega)
    (fun n h1 h2 => hfail n h1 h2)]
  simp

theorem retry_eval_succeed (check : Nat → Option String) (r k : Nat)
    (hk1 : 1 ≤ k) (hkr : k ≤ r)
    (hfail : ∀ n, 1 ≤ n → n < k → check n ≠ none) (hsucc : check k = none) :
    retry check (JSNum.num (r : Int)) = (k, k) := by
  unfold retry
  rw [retryLoop_succeed_aux check r k (k - 1) 1 (by omega) hk1 hkr
    (fun n h1 h2 => hfail n h1 h2) hsucc]
  simp only [Prod.mk.injEq]
  exact ⟨trivial, by omega⟩

/-- Claim C1: for every maxAttempts greater or equal 1 and every k with
1 <= k <= maxAttempts, if the check rejects on attempts 1..k-1 and resolves
on attempt k, retry returns k and invokes the check exactly k times; the
always-succeeding case is the instance k = 1. -/
theorem retry_first_success (check : Nat → Option String) (r k : Nat)
    (hr : 1 ≤ r) (hk1 : 1 ≤ k) (hkr : k ≤ r)
    (hfail : ∀ n, 1 ≤ n → n < k → check n ≠ none)
    (hsucc : check k = none) :
    retry check (JSNum.num (r : Int)) = (k, k) :=
  retry_eval_succeed check r k hk1 hkr hfail hsucc

theorem retry_first_success_witness :
    retry (fun n => if n = 2 then none else some "timeout")
      (JSNum.num ((3 : Nat) : Int)) = (2, 2) :=
  retry_first_success (fun n => if n = 2 then none else some "timeout") 3 2
    (by decide) (by decide) (by decide)
    (by
      intro n h1 h2
      have hn : n = 1 := by omega
      subst hn
      simp)
    (by simp)

/-- Claim C2: for every maxAttempts greater or equal 1, if the check rejects
on every attempt, retry returns maxAttempts + 1 and invokes the check
exactly maxAttempts times: the counter is incremented past the limit before
the loop condition is re-checked. -/
theorem retry_exhaustion (check : Nat → Option String) (r : Nat)
    (hr : 1 ≤ r) (hfail : ∀ n, check n ≠ none) :
    retry check (JSNum.num (r : Int)) = (r + 1, r) :=
  retry_eval_exhaust check r (fun n _ _ => hfail n)

theorem retry_exhaustion_witness :
    retry (fun _ => some "timeout") (JSNum.num ((2 : Nat) : Int)) = (2 + 1, 2) :=
  retry_exhaustion (fun _ => some "timeout") 2 (by decide)
    (by intro n; simp)

/-- Claim C6: loop invariant of the retry controller: for max retries
greater or equal 1 the final counter never exceeds max retries + 1, and it
equals exactly k when the k-th attempt is the first to succeed. -/
theorem retry_counter_invariant (check : Nat → Option String) (r : Nat)
    (hr : 1 ≤ r) :
    (retry check (JSNum.num (r : Int))).1 ≤ r + 1 ∧
    (∀ k, 1 ≤ k → k ≤ r → (∀ n, 1 ≤ n → n < k → check n ≠ none) →
      check k = none → (retry check (JSNum.num (r : Int))).1 = k) := by
  constructor
  · unfold retry
    exact retryLoop_le_aux check r r 1 (by omega) (by omega)
  · intro k hk1 hkr hfail hsucc
    rw [retry_eval_succeed check r k hk1 hkr hfail hsucc]

theorem retry_counter_invariant_witness :
    (retry (fun _ => some "timeout") (JSNum.num ((2 : Nat) : Int))).1 ≤ 2 + 1 :=
  (retry_counter_invariant (fun _ => some "timeout") 2 (by decide)).1

/-- Claim C3 (code behavior at the claimed scenario): with role-to-assume
absent, the run does set the fatal configuration failure and never builds
the connection nor runs a stability check, but the STS AssumeRole network
call is still attempted, because main awaits assumeRoleInAccount
(src/index.js line 117) before the null-params early return (lines
120-122). This contradicts the claim that no network call is attempted. -/
theorem main_missing_role_still_calls_sts :
    (mainRun ⟨"us-east-1", "", JSNum.num ((2 : Nat) : Int), "my-cluster",
        Except.ok ["svcA"], "false", ""⟩
      (Except.ok ⟨"AKIA", "SECRET", "TOKEN"⟩) (fun _ => none)).stsCalled
        = true ∧
    (mainRun ⟨"us-east-1", "", JSNum.num ((2 : Nat) : Int), "my-cluster",
        Except.ok ["svcA"], "false", ""⟩
      (Except.ok ⟨"AKIA", "SECRET", "TOKEN"⟩) (fun _ => none)).failedMsgs
        = [configFailMsg] ∧
    (mainRun ⟨"us-east-1", "", JSNum.num ((2 : Nat) : Int), "my-cluster",
        Except.ok ["svcA"], "false", ""⟩
      (Except.ok ⟨"AKIA", "SECRET", "TOKEN"⟩)
        (fun _ => none)).ecsConnectionMade = false ∧
    (mainRun ⟨"us-east-1", "", JSNum.num ((2 : Nat) : Int), "my-cluster",
        Except.ok ["svcA"], "false", ""⟩
      (Except.ok ⟨"AKIA", "SECRET", "TOKEN"⟩) (fun _ => none)).checkCalls
        = 0 :=
  ⟨rfl, rfl, rfl, rfl⟩

/-- Claim C4: with valid configuration and credentials, the entry point sets
the exhaustion failure exactly when the count returned by retry is strictly
greater than the configured retries value, and the message interpolates the
configured value, not the attempts consumed. -/
theorem main_failure_signal (i : Inputs) (svcs : List String) (s : StsCreds)
    (check : Nat → Option String) (r : Int)
    (hsv : i.servicesInput = Except.ok svcs)
    (hrole : i.roleToAssume ≠ "") (hreg : resolvedRegion i ≠ "")
    (hret : i.retriesInput = JSNum.num r) :
    ((mainRun i (Except.ok s) check).failedMsgs =
      if jsGt ((retry check (JSNum.num r)).1 : Int) (JSNum.num r) then
        [stabilityFailMsg (JSNum.num r)]
      else []) ∧
    stabilityFailMsg (JSNum.num r) =
      "Service is not stable after " ++ toString r ++ " retries!" := by
  constructor
  · rw [mainRun_valid i svcs s check hsv hrole hreg, hret]
    by_cases h : jsGt ((retry check (JSNum.num r)).1 : Int) (JSNum.num r)
        = true
    · simp [h]
    · simp [h]
  · rfl

theorem main_failure_signal_witness :
    (mainRun ⟨"eu-west-1", "", JSNum.num ((2 : Nat) : Int), "cl",
        Except.ok ["svcA"], "false", "arn-role"⟩
      (Except.ok ⟨"id", "sec", "tok"⟩) (fun _ => some "boom")).failedMsgs =
      ["Service is not stable after 2 retries!"] := by
  have h := main_failure_signal ⟨"eu-west-1", "", JSNum.num ((2 : Nat) : Int),
      "cl", Except.ok ["svcA"], "false", "arn-role"⟩ ["svcA"]
      ⟨"id", "sec", "tok"⟩ (fun _ => some "boom") ((2 : Nat) : Int) rfl
      (by decide) (by decide) rfl
  have he : retry (fun _ : Nat => some "boom")
      (JSNum.num ((2 : Nat) : Int)) = (3, 2) :=
    retry_eval_exhaust (fun _ : Nat => some "boom") 2 (by intro n _ _; simp)
  rw [h.1, he]
  decide

/-- Claim C5: with valid configuration and credentials, when the count
returned by retry is at most the configured retries value, the entry point
emits exactly the retries output holding the decimal string of the attempts
consumed and sets no failure. -/
theorem main_success_output (i : Inputs) (svcs : List String) (s : StsCreds)
    (check : Nat → Option String) (r : Int)
    (hsv : i.servicesInput = Except.ok svcs)
    (hrole : i.roleToAssume ≠ "") (hreg : resolvedRegion i ≠ "")
    (hret : i.retriesInput = JSNum.num r)
    (hle : ((retry check (JSNum.num r)).1 : Int) ≤ r) :
    (mainRun i (Except.ok s) check).output =
      some (toString (retry check (JSNum.num r)).1) ∧
    (mainRun i (Except.ok s) check).failedMsgs = [] := by
  have hgt : jsGt ((retry check (JSNum.num r)).1 : Int) (JSNum.num r)
      = false := by
    simp only [jsGt, decide_eq_false_iff_not]
    omega
  rw [mainRun_valid i svcs s check hsv hrole hreg, hret]
  simp [hgt]

theorem main_success_output_witness :
    (mainRun ⟨"eu-west-1", "", JSNum.num ((3 : Nat) : Int), "cl",
        Except.ok ["svcA"], "false", "arn-role"⟩
      (Except.ok ⟨"id", "sec", "tok"⟩)
      (fun n => if n ≤ 2 then some "e" else none)).output = some "3" ∧
    (mainRun ⟨"eu-west-1", "", JSNum.num ((3 : Nat) : Int), "cl",
        Except.ok ["svcA"], "false", "arn-role"⟩
      (Except.ok ⟨"id", "sec", "tok"⟩)
      (fun n => if n ≤ 2 then some "e" else none)).failedMsgs = [] := by
  have he : retry (fun n : Nat => if n ≤ 2 then some "e" else none)
      (JSNum.num ((3 : Nat) : Int)) = (3, 3) :=
    retry_eval_succeed (fun n : Nat => if n ≤ 2 then some "e" else none) 3 3
      (by decide) (by decide)
      (by
        intro n h1 h2
        have : n ≤ 2 := by omega
        simp [this])
      (by simp)
  have h := main_success_output ⟨"eu-west-1", "", JSNum.num ((3 : Nat) : Int),
      "cl", Except.ok ["svcA"], "false", "arn-role"⟩ ["svcA"]
      ⟨"id", "sec", "tok"⟩ (fun n => if n ≤ 2 then some "e" else none)
      ((3 : Nat) : Int) rfl (by decide) (by decide) rfl
      (by rw [he])
  obtain ⟨h1, h2⟩ := h
  rw [he] at h1
  exact ⟨h1, h2⟩

/-- Claim C9: when parseInt yields NaN for the retries input, the loop
condition is false at once, so retry returns 1 with zero check invocations;
and since 1 > NaN is also false, the entry point takes the success path and
emits the output string 1 although no stability check ran. -/
theorem main_nan_retries_success_path (i : Inputs) (svcs : List String)
    (s : StsCreds) (check : Nat → Option String)
    (hsv : i.servicesInput = Except.ok svcs)
    (hrole : i.roleToAssume ≠ "") (hreg : resolvedRegion i ≠ "")
    (hnan : i.retriesInput = JSNum.nan) :
    retry check JSNum.nan = (1, 0) ∧
    (mainRun i (Except.ok s) check).output = some "1" ∧
    (mainRun i (Except.ok s) check).checkCalls = 0 ∧
    (mainRun i (Except.ok s) check).failedMsgs = [] := by
  have hr : retry check JSNum.nan = (1, 0) := by
    unfold retry
    exact retryLoop_stop check JSNum.nan 1 (by simp [jsLe])
  refine ⟨hr, ?_⟩
  rw [mainRun_valid i svcs s check hsv hrole hreg, hnan, hr]
  refine ⟨?_, ?_, ?_⟩ <;> simp [jsGt] <;> rfl

theorem main_nan_retries_success_path_witness :
    retry (fun _ => some "e") JSNum.nan = (1, 0) ∧
    (mainRun ⟨"eu-west-1", "", JSNum.nan, "cl", Except.ok ["svcA"], "false",
        "arn-role"⟩
      (Except.ok ⟨"id", "sec", "tok"⟩) (fun _ => some "e")).output
        = some "1" ∧
    (mainRun ⟨"eu-west-1", "", JSNum.nan, "cl", Except.ok ["svcA"], "false",
        "arn-role"⟩
      (Except.ok ⟨"id", "sec", "tok"⟩) (fun _ => some "e")).checkCalls
        = 0 ∧
    (mainRun ⟨"eu-west-1", "", JSNum.nan, "cl", Except.ok ["svcA"], "false",
        "arn-role"⟩
      (Except.ok ⟨"id", "sec", "tok"⟩) (fun _ => some "e")).failedMsgs
        = [] :=
  main_nan_retries_success_path ⟨"eu-west-1", "", JSNum.nan, "cl",
      Except.ok ["svcA"], "false", "arn-role"⟩ ["svcA"] ⟨"id", "sec", "tok"⟩
    (fun _ => some "e") rfl (by decide) (by decide) rfl

/-- Claim C7: the retry loop absorbs rejections of the stability check
identically whatever the error value is, while an error thrown during
parameter parsing or during credential acquisition reaches the single
top-level handler unchanged, which records the message of the error as the
fatal failure and stops the sequence. -/
theorem error_propagation_policy
    (o1 o2 : Nat → Option String) (r : Int)
    (hsame : ∀ n, o1 n = none ↔ o2 n = none)
    (i : Inputs) (svcs : List String) (m : String)
    (check : Nat → Option String)
    (hsv : i.servicesInput = Except.ok svcs)
    (hrole : i.roleToAssume ≠ "") (hreg : resolvedRegion i ≠ "")
    (i2 : Inputs) (m2 : String) (sts2 : Except String StsCreds)
    (hsv2 : i2.servicesInput = Except.error m2) :
    retry o1 (JSNum.num r) = retry o2 (JSNum.num r) ∧
    (mainRun i (Except.error m) check).failedMsgs = [m] ∧
    (mainRun i (Except.error m) check).output = none ∧
    (mainRun i (Except.error m) check).ecsConnectionMade = false ∧
    (mainRun i (Except.error m) check).checkCalls = 0 ∧
    (mainRun i2 sts2 check).failedMsgs = [m2] ∧
    (mainRun i2 sts2 check).stsCalled = false := by
  have hmain : mainRun i (Except.error m) check =
      ⟨[m], none, true, false, 0, none, none⟩ := by
    unfold mainRun
    rw [extractParams_valid i svcs hsv hrole hreg]
    simp [assumeRoleInAccount]
  have hmain2 : mainRun i2 sts2 check =
      ⟨[m2], none, false, false, 0, none, none⟩ := by
    unfold mainRun extractParams
    rw [hsv2]
  refine ⟨?_, ?_, ?_, ?_, ?_, ?_, ?_⟩
  · unfold retry
    exact retryLoop_congr_aux o1 o2 hsame r _ 1 rfl
  · rw [hmain]
  · rw [hmain]
  · rw [hmain]
  · rw [hmain]
  · rw [hmain2]
  · rw [hmain2]

theorem error_propagation_policy_witness :
    retry (fun n => if n = 2 then none else some "errA") (JSNum.num 5) =
      retry (fun n => if n = 2 then none else some "errB") (JSNum.num 5) ∧
    (mainRun ⟨"eu-west-1", "", JSNum.num 5, "cl", Except.ok ["svcA"], "false",
        "arn-role"⟩
      (Except.error "AccessDenied") (fun _ => none)).failedMsgs
        = ["AccessDenied"] ∧
    (mainRun ⟨"eu-west-1", "", JSNum.num 5, "cl", Except.ok ["svcA"], "false",
        "arn-role"⟩
      (Except.error "AccessDenied") (fun _ => none)).output = none ∧
    (mainRun ⟨"eu-west-1", "", JSNum.num 5, "cl", Except.ok ["svcA"], "false",
        "arn-role"⟩
      (Except.error "AccessDenied") (fun _ => none)).ecsConnectionMade
        = false ∧
    (mainRun ⟨"eu-west-1", "", JSNum.num 5, "cl", Except.ok ["svcA"], "false",
        "arn-role"⟩
      (Except.error "AccessDenied") (fun _ => none)).checkCalls = 0 ∧
    (mainRun ⟨"eu-west-1", "", JSNum.num 5, "cl",
        Except.error "Unexpected token", "false", "arn-role"⟩
      (Except.ok ⟨"id", "sec", "tok"⟩) (fun _ => none)).failedMsgs
        = ["Unexpected token"] ∧
    (mainRun ⟨"eu-west-1", "", JSNum.num 5, "cl",
        Except.error "Unexpected token", "false", "arn-role"⟩
      (Except.ok ⟨"id", "sec", "tok"⟩) (fun _ => none)).stsCalled
        = false :=
  error_propagation_policy
    (fun n => if n = 2 then none else some "errA")
    (fun n => if n = 2 then none else some "errB") 5
    (by intro n; by_cases h : n = 2 <;> simp [h])
    ⟨"eu-west-1", "", JSNum.num 5, "cl", Except.ok ["svcA"], "false",
     "arn-role"⟩ ["svcA"] "AccessDenied" (fun _ => none) rfl
    (by decide) (by decide)
    ⟨"eu-west-1", "", JSNum.num 5, "cl", Except.error "Unexpected token",
     "false", "arn-role"⟩ "Unexpected token" (Except.ok ⟨"id", "sec", "tok"⟩)
    rfl

/-- Claim C8: the service list parsed from the ecs-services input is
forwarded to the waitFor call of the orchestration client unchanged and in
the same order, inside the request built by waitForStability. -/
theorem main_services_forwarded (i : Inputs) (svcs : List String)
    (s : StsCreds) (check : Nat → Option String) (r : Int)
    (hsv : i.servicesInput = Except.ok svcs)
    (hrole : i.roleToAssume ≠ "") (hreg : resolvedRegion i ≠ "")
    (hret : i.retriesInput = JSNum.num r) (hr : 1 ≤ r) :
    (mainRun i (Except.ok s) check).waitReq =
      some (waitForStabilityReq i.cluster svcs) ∧
    (waitForStabilityReq i.cluster svcs).services = svcs := by
  have hpos : (retry check (JSNum.num r)).2 ≠ 0 := by
    apply retry_calls_pos
    simp only [jsLe, decide_eq_true_eq]
    omega
  constructor
  · rw [mainRun_valid i svcs s check hsv hrole hreg, hret]
    by_cases h : jsGt ((retry check (JSNum.num r)).1 : Int) (JSNum.num r)
        = true
    · simp [h, hpos]
    · simp [h, hpos]
  · rfl

theorem main_services_forwarded_witness :
    (mainRun ⟨"eu-west-1", "", JSNum.num 1, "cl",
        Except.ok ["svcA", "svcB"], "false", "arn-role"⟩
      (Except.ok ⟨"id", "sec", "tok"⟩) (fun _ => none)).waitReq =
      some (waitForStabilityReq "cl" ["svcA", "svcB"]) ∧
    (waitForStabilityReq "cl" ["svcA", "svcB"]).services =
      ["svcA", "svcB"] :=
  main_services_forwarded ⟨"eu-west-1", "", JSNum.num 1, "cl",
      Except.ok ["svcA", "svcB"], "false", "arn-role"⟩ ["svcA", "svcB"]
    ⟨"id", "sec", "tok"⟩ (fun _ => none) 1 rfl (by decide) (by decide) rfl
    (by decide)

/-- Claim C10: the region of the credentials returned by the role-assumption
step is the constant eu-central-1, independent of the aws-region input and
of the STS response, so the ECS connection built from them always targets
eu-central-1, while the aws-region input is used only for the STS client. -/
theorem region_hardcoded :
    (∀ (s : StsCreds) (c : Credentials),
      assumeRoleInAccount (Except.ok s) = Except.ok c →
        c.region = "eu-central-1" ∧
        (createEcsConnection c).region = "eu-central-1") ∧
    (∀ (i : Inputs) (sts : Except String StsCreds)
        (check : Nat → Option String),
      (mainRun i sts check).ecsConnectionMade = true →
        (mainRun i sts check).connRegion = some "eu-central-1") ∧
    (∀ region : String, stsClientRegion region = region) := by
  refine ⟨?_, ?_, fun _ => rfl⟩
  · intro s c hc
    simp only [assumeRoleInAccount, Except.ok.injEq] at hc
    subst hc
    exact ⟨rfl, rfl⟩
  · intro i sts check h
    unfold mainRun at h ⊢
    cases hval : extractParams i with
    | error e =>
        rw [hval] at h
        simp at h
    | ok paramsOpt =>
        rw [hval] at h
        cases hsts : assumeRoleInAccount sts with
        | error e =>
            rw [hsts] at h
            simp at h
        | ok credentials =>
            rw [hsts] at h
            have hcr : credentials.region = "eu-central-1" := by
              cases sts with
              | error e => simp [assumeRoleInAccount] at hsts
              | ok s =>
                  simp only [assumeRoleInAccount, Except.ok.injEq] at hsts
                  rw [← hsts]
            cases paramsOpt with
            | none => simp at h
            | some params =>
                dsimp only
                split <;> simp [createEcsConnection, hcr]

theorem region_hardcoded_witness :
    Credentials.region ⟨"id", "sec", "tok", "eu-central-1"⟩
        = "eu-central-1" ∧
    (createEcsConnection ⟨"id", "sec", "tok", "eu-central-1"⟩).region
        = "eu-central-1" :=
  region_hardcoded.1 ⟨"id", "sec", "tok"⟩
    ⟨"id", "sec", "tok", "eu-central-1"⟩ rfl

end EcsWait
